import Mathlib

/-!
Verification development for the Solis/Ginlong local monitor
(collector.py, dashboard.py, config.py).

Modelling conventions:
- Python floats are modelled as rationals (ℚ); every numeric computation in
  the sources is a sum/product/quotient of register words and decimal scale
  factors, so the rational model is exact for them.
- A UTC timestamp is a number of seconds since the epoch (Nat);
  SQLite date(timestamp) is the UTC day number t / 86400 and the
  strftime hour bucket is t / 3600.
- SQLite tables are lists of rows in insertion (rowid) order.
- SQL aggregates MAX/AVG over a filtered group return NULL exactly when the
  group is empty; MAX is modelled by an Option-valued maximum.
- ORDER BY active_power_w DESC LIMIT 1 is modelled as the first row in
  table-scan (insertion) order attaining the maximal value: SQLite's
  ORDER BY ... LIMIT optimisation keeps the incumbent row on ties, and the
  scan order of the readings table is insertion order.
-/

namespace Solar

/-- SQLite date(timestamp): the UTC calendar day number of a timestamp. -/
def dateOf (t : Nat) : Nat := t / 86400

/-- The strftime %Y-%m-%dT%H hour bucket of a timestamp. -/
def hourOf (t : Nat) : Nat := t / 3600

/-- Big-endian combination of two 16-bit register words,
collector.py lines 96, 101, 145: (r[0] << 16) + r[1]. -/
def be32 (hi lo : Nat) : Nat := hi * 65536 + lo

/-- 32-bit twos-complement reinterpretation, collector.py line 102:
val - 4294967296 if val > 2147483647 else val. -/
def signed32 (val : Nat) : Int :=
  if val > 2147483647 then (val : Int) - 4294967296 else (val : Int)

/-- 16-bit twos-complement reinterpretation, collector.py line 130:
val - 65536 if val > 32767 else val. -/
def signed16 (val : Nat) : Int :=
  if val > 32767 then (val : Int) - 65536 else (val : Int)

/-- The pysolarmanv5 transport boundary: read_input_registers(addr, quantity)
returns the register words or fails with a transport error. -/
structure DeviceClient where
  read : Nat → Nat → Except Unit (List Nat)

/-- Python list indexing r[i]: an out-of-range index raises, which the
collector turns into a cycle failure. -/
def geti (r : List Nat) (i : Nat) : Except Unit Nat :=
  match r.get? i with
  | some v => Except.ok v
  | none => Except.error ()

/-- The dict assembled by read_inverter, one field per register read,
in the order collector.py fills it (lines 92-150). -/
structure InvData where
  active_power_w : ℚ
  reactive_power_var : ℚ
  pv1_voltage_v : ℚ
  pv1_current_a : ℚ
  pv2_voltage_v : ℚ
  pv2_current_a : ℚ
  ac_voltage_v : ℚ
  ac_current_a : ℚ
  temperature_c : ℚ
  grid_frequency_hz : ℚ
  energy_today_kwh : ℚ
  energy_total_kwh : ℚ
  status : Nat
deriving DecidableEq

/-- collector.py read_inverter (lines 77-158): read each field's registers in
order, decode, and assemble the data dict; the first failing read or index
aborts the whole cycle (the Python exception propagates past the dict). -/
def read_inverter (dev : DeviceClient) : Except Unit InvData := do
  -- Active Power (reg 3004, uint32 across 2 registers)
  let r ← dev.read 3004 2
  let r0 ← geti r 0
  let r1 ← geti r 1
  let active_power_w : ℚ := (be32 r0 r1 : ℚ)
  -- Reactive Power (reg 3006, int32)
  let r ← dev.read 3006 2
  let r0 ← geti r 0
  let r1 ← geti r 1
  let reactive_power_var : ℚ := (signed32 (be32 r0 r1) : ℚ)
  -- PV1 Voltage & Current (reg 3021-3022)
  let r ← dev.read 3021 2
  let r0 ← geti r 0
  let r1 ← geti r 1
  let pv1_voltage_v : ℚ := (r0 : ℚ) * (1/10)
  let pv1_current_a : ℚ := (r1 : ℚ) * (1/10)
  -- PV2 Voltage & Current (reg 3023-3024)
  let r ← dev.read 3023 2
  let r0 ← geti r 0
  let r1 ← geti r 1
  let pv2_voltage_v : ℚ := (r0 : ℚ) * (1/10)
  let pv2_current_a : ℚ := (r1 : ℚ) * (1/10)
  -- AC Voltage (reg 3035)
  let r ← dev.read 3035 1
  let r0 ← geti r 0
  let ac_voltage_v : ℚ := (r0 : ℚ) * (1/10)
  -- AC Current (reg 3038)
  let r ← dev.read 3038 1
  let r0 ← geti r 0
  let ac_current_a : ℚ := (r0 : ℚ) * (1/10)
  -- Temperature (reg 3041, int16, x0.1): scale applied after sign extension
  let r ← dev.read 3041 1
  let v ← geti r 0
  let temperature_c : ℚ := (signed16 v : ℚ) * (1/10)
  -- Grid Frequency (reg 3042, x0.01)
  let r ← dev.read 3042 1
  let r0 ← geti r 0
  let grid_frequency_hz : ℚ := (r0 : ℚ) * (1/100)
  -- Energy Today (reg 3014, x0.1)
  let r ← dev.read 3014 1
  let r0 ← geti r 0
  let energy_today_kwh : ℚ := (r0 : ℚ) * (1/10)
  -- Total Energy (reg 3008, uint32)
  let r ← dev.read 3008 2
  let r0 ← geti r 0
  let r1 ← geti r 1
  let energy_total_kwh : ℚ := (be32 r0 r1 : ℚ)
  -- Operating Status (reg 3043)
  let r ← dev.read 3043 1
  let status ← geti r 0
  pure
    { active_power_w := active_power_w
      reactive_power_var := reactive_power_var
      pv1_voltage_v := pv1_voltage_v
      pv1_current_a := pv1_current_a
      pv2_voltage_v := pv2_voltage_v
      pv2_current_a := pv2_current_a
      ac_voltage_v := ac_voltage_v
      ac_current_a := ac_current_a
      temperature_c := temperature_c
      grid_frequency_hz := grid_frequency_hz
      energy_today_kwh := energy_today_kwh
      energy_total_kwh := energy_total_kwh
      status := status }

/-- One row of the readings table (collector.py init_db, lines 36-54),
timestamp plus the thirteen decoded fields. -/
structure Reading where
  timestamp : Nat
  active_power_w : ℚ
  reactive_power_var : ℚ
  pv1_voltage_v : ℚ
  pv1_current_a : ℚ
  pv2_voltage_v : ℚ
  pv2_current_a : ℚ
  ac_voltage_v : ℚ
  ac_current_a : ℚ
  temperature_c : ℚ
  grid_frequency_hz : ℚ
  energy_today_kwh : ℚ
  energy_total_kwh : ℚ
  status : Nat
deriving DecidableEq

/-- One row of the daily_summary table (collector.py init_db, lines 55-64).
peak_power_time is Option because the dashboard fallback emits NULL there. -/
structure SummaryRow where
  date : Nat
  energy_kwh : ℚ
  peak_power_w : ℚ
  peak_power_time : Option Nat
  avg_temperature_c : ℚ
  generation_hours : ℚ
deriving DecidableEq

/-- SQL MAX over a column: NULL (none) exactly when the group is empty. -/
def maxQ : List ℚ → Option ℚ
  | [] => none
  | a :: t =>
    some (match maxQ t with
      | none => a
      | some m => max a m)

/-- SQL AVG over a column (only used on nonempty groups). -/
def avgQ (l : List ℚ) : ℚ := l.sum / l.length

/-- SELECT ... ORDER BY active_power_w DESC LIMIT 1 over a scan of the rows
in list (insertion) order: the first row attaining the maximal active power
(SQLite's LIMIT optimisation keeps the incumbent row on ties). -/
def argmaxFirst : List Reading → Option Reading
  | [] => none
  | a :: t =>
    some (match argmaxFirst t with
      | none => a
      | some b => if b.active_power_w > a.active_power_w then b else a)

/-- INSERT OR REPLACE keyed by the date primary key. -/
def upsert (row : SummaryRow) (tbl : List SummaryRow) : List SummaryRow :=
  tbl.filter (fun s => decide (s.date ≠ row.date)) ++ [row]

/-- SELECT the daily_summary row for a date (primary-key lookup). -/
def lookupDate (d : Nat) (tbl : List SummaryRow) : Option SummaryRow :=
  tbl.find? fun s => decide (s.date = d)

/-- collector.py update_daily_summary (lines 205-234): aggregate today's
readings with active_power_w > 0; if MAX(energy_today_kwh) is non-NULL
(i.e. the filtered group is nonempty) upsert the summary row, whose
peak_power_time comes from an ORDER BY power DESC LIMIT 1 over all of
today's readings (no positivity filter). -/
def update_daily_summary (pollInterval today : Nat) (readings : List Reading)
    (tbl : List SummaryRow) : List SummaryRow :=
  match maxQ (((readings.filter fun r => decide (dateOf r.timestamp = today)).filter
          fun r => decide (0 < r.active_power_w)).map fun r => r.energy_today_kwh),
        maxQ (((readings.filter fun r => decide (dateOf r.timestamp = today)).filter
          fun r => decide (0 < r.active_power_w)).map fun r => r.active_power_w) with
  | some e, some p =>
    upsert
      { date := today
        energy_kwh := e
        peak_power_w := p
        peak_power_time :=
          Option.map (fun r => r.timestamp)
            (argmaxFirst (readings.filter fun r => decide (dateOf r.timestamp = today)))
        avg_temperature_c :=
          avgQ (((readings.filter fun r => decide (dateOf r.timestamp = today)).filter
            fun r => decide (0 < r.active_power_w)).map fun r => r.temperature_c)
        generation_hours :=
          (((readings.filter fun r => decide (dateOf r.timestamp = today)).filter
            fun r => decide (0 < r.active_power_w)).length : ℚ) * (pollInterval : ℚ) / 60 }
      tbl
  | _, _ => tbl

/-- dashboard.py api_daily_summary fallback (lines 142-155): the per-date
GROUP BY row derived from raw readings WHERE active_power_w > 0, with a NULL
peak_power_time and a hard-coded 5-minute interval in generation_hours;
none when the date has no positive-power reading (no group). -/
def fallback_row (d : Nat) (readings : List Reading) : Option SummaryRow :=
  match readings.filter fun r =>
      decide (0 < r.active_power_w) && decide (dateOf r.timestamp = d) with
  | [] => none
  | a :: t =>
    some
      { date := d
        energy_kwh := ((maxQ ((a :: t).map fun r => r.energy_today_kwh)).getD 0)
        peak_power_w := ((maxQ ((a :: t).map fun r => r.active_power_w)).getD 0)
        peak_power_time := none
        avg_temperature_c := avgQ ((a :: t).map fun r => r.temperature_c)
        generation_hours := (((a :: t).length : ℚ)) * 5 / 60 }

/-- The SQLite database state the two processes share. -/
structure DB where
  readings : List Reading
  daily_summary : List SummaryRow
deriving DecidableEq

/-- collector.py store_reading (lines 165-194): append one readings row
stamped with the acquisition time. -/
def mkReading (now : Nat) (d : InvData) : Reading :=
  { timestamp := now
    active_power_w := d.active_power_w
    reactive_power_var := d.reactive_power_var
    pv1_voltage_v := d.pv1_voltage_v
    pv1_current_a := d.pv1_current_a
    pv2_voltage_v := d.pv2_voltage_v
    pv2_current_a := d.pv2_current_a
    ac_voltage_v := d.ac_voltage_v
    ac_current_a := d.ac_current_a
    temperature_c := d.temperature_c
    grid_frequency_hz := d.grid_frequency_hz
    energy_today_kwh := d.energy_today_kwh
    energy_total_kwh := d.energy_total_kwh
    status := d.status }

def store_reading (db : DB) (now : Nat) (d : InvData) : DB :=
  { db with readings := db.readings ++ [mkReading now d] }

/-- One iteration of the collector main loop body (collector.py lines
254-261): read the inverter; on success store the reading and refresh the
daily summary; any exception is caught and leaves the database unchanged. -/
def cycleStep (pollInterval : Nat) (dev : DeviceClient) (now : Nat) (db : DB) : DB :=
  match read_inverter dev with
  | Except.error _ => db
  | Except.ok d =>
    let db1 := store_reading db now d
    { db1 with
        daily_summary :=
          update_daily_summary pollInterval (dateOf now) db1.readings db1.daily_summary }

/-- The collector main loop over a finite schedule of cycles, each with its
device session and wall-clock time: a failed cycle never stops later ones. -/
def runCycles (pollInterval : Nat) : List (DeviceClient × Nat) → DB → DB
  | [], db => db
  | c :: rest, db => runCycles pollInterval rest (cycleStep pollInterval c.1 c.2 db)

/-- The today block of dashboard.py api_stats (lines 171-183): aggregates
over ALL of today's readings, with no positive-power filter. -/
structure TodayStats where
  energy_today : Option ℚ
  peak_power_today : Option ℚ
  avg_temp_today : Option ℚ
  readings_today : Nat
deriving DecidableEq

def api_stats_today (today : Nat) (readings : List Reading) : TodayStats :=
  { energy_today :=
      maxQ ((readings.filter fun r => decide (dateOf r.timestamp = today)).map
        fun r => r.energy_today_kwh)
    peak_power_today :=
      maxQ ((readings.filter fun r => decide (dateOf r.timestamp = today)).map
        fun r => r.active_power_w)
    avg_temp_today :=
      if (readings.filter fun r => decide (dateOf r.timestamp = today)) = [] then none
      else
        some (avgQ ((readings.filter fun r => decide (dateOf r.timestamp = today)).map
          fun r => r.temperature_c))
    readings_today := (readings.filter fun r => decide (dateOf r.timestamp = today)).length }

/-- The query parameters of dashboard.py api_history (lines 64-75). -/
structure HistoryQuery where
  qstart : Option Nat
  qend : Option Nat
  qres : Option String
deriving DecidableEq

/-- One output row of api_history; columns absent from a branch's SELECT are
none. label is the raw timestamp, the hour-bucket start, or the date. -/
structure HRow where
  label : Nat
  active_power_w : ℚ
  peak_power_w : Option ℚ
  pv1_voltage_v : Option ℚ
  pv1_current_a : Option ℚ
  ac_voltage_v : Option ℚ
  temperature_c : ℚ
  energy_today_kwh : ℚ
deriving DecidableEq

/-- Ascending insertion used to model the ORDER BY over bucket labels. -/
def insertAsc (x : Nat) : List Nat → List Nat
  | [] => [x]
  | y :: ys => if x ≤ y then x :: y :: ys else y :: insertAsc x ys

def sortAscNat (l : List Nat) : List Nat := l.foldr insertAsc []

/-- dashboard.py api_history (lines 64-124): defaults start to 7 days before
the current UTC date and end to the current UTC date, then branches on the
resolution string; anything other than hourly/daily takes the raw branch.
The handler body never raises, so the Except error case is unreachable. -/
def api_history (nowDay : Nat) (q : HistoryQuery) (readings : List Reading) :
    Except String (List HRow) :=
  let start := q.qstart.getD (nowDay - 7)
  let stop := q.qend.getD nowDay
  let resolution := q.qres.getD "raw"
  let inRange := readings.filter fun r =>
    decide (start ≤ dateOf r.timestamp) && decide (dateOf r.timestamp ≤ stop)
  if resolution = "hourly" then
    Except.ok
      ((sortAscNat (inRange.map fun r => hourOf r.timestamp).dedup).map fun k =>
        { label := k * 3600
          active_power_w :=
            avgQ ((inRange.filter fun r => decide (hourOf r.timestamp = k)).map
              fun r => r.active_power_w)
          peak_power_w :=
            maxQ ((inRange.filter fun r => decide (hourOf r.timestamp = k)).map
              fun r => r.active_power_w)
          pv1_voltage_v :=
            some (avgQ ((inRange.filter fun r => decide (hourOf r.timestamp = k)).map
              fun r => r.pv1_voltage_v))
          pv1_current_a := none
          ac_voltage_v :=
            some (avgQ ((inRange.filter fun r => decide (hourOf r.timestamp = k)).map
              fun r => r.ac_voltage_v))
          temperature_c :=
            avgQ ((inRange.filter fun r => decide (hourOf r.timestamp = k)).map
              fun r => r.temperature_c)
          energy_today_kwh :=
            ((maxQ ((inRange.filter fun r => decide (hourOf r.timestamp = k)).map
              fun r => r.energy_today_kwh)).getD 0) })
  else if resolution = "daily" then
    Except.ok
      ((sortAscNat (inRange.map fun r => dateOf r.timestamp).dedup).map fun k =>
        { label := k
          active_power_w :=
            avgQ ((inRange.filter fun r => decide (dateOf r.timestamp = k)).map
              fun r => r.active_power_w)
          peak_power_w :=
            maxQ ((inRange.filter fun r => decide (dateOf r.timestamp = k)).map
              fun r => r.active_power_w)
          pv1_voltage_v := none
          pv1_current_a := none
          ac_voltage_v := none
          temperature_c :=
            avgQ ((inRange.filter fun r => decide (dateOf r.timestamp = k)).map
              fun r => r.temperature_c)
          energy_today_kwh :=
            ((maxQ ((inRange.filter fun r => decide (dateOf r.timestamp = k)).map
              fun r => r.energy_today_kwh)).getD 0) })
  else
    Except.ok
      (inRange.map fun r =>
        { label := r.timestamp
          active_power_w := r.active_power_w
          peak_power_w := none
          pv1_voltage_v := some r.pv1_voltage_v
          pv1_current_a := some r.pv1_current_a
          ac_voltage_v := some r.ac_voltage_v
          temperature_c := r.temperature_c
          energy_today_kwh := r.energy_today_kwh })

/-- Concrete-reading constructor for the test fixtures below: timestamp,
active power, temperature, energy-today; the remaining columns are zero. -/
def rrE (ts : Nat) (p t e : ℚ) : Reading :=
  { timestamp := ts
    active_power_w := p
    reactive_power_var := 0
    pv1_voltage_v := 0
    pv1_current_a := 0
    pv2_voltage_v := 0
    pv2_current_a := 0
    ac_voltage_v := 0
    ac_current_a := 0
    temperature_c := t
    grid_frequency_hz := 0
    energy_today_kwh := e
    energy_total_kwh := 0
    status := 0 }

/-- Fixture for C3: one date (day 0), active powers [0, 500, 800, 300] at a
5-minute cadence, the example of spec section 8. -/
def rs3 : List Reading := [rrE 100 0 20 1, rrE 400 500 21 2, rrE 700 800 22 3, rrE 1000 300 23 4]

/-- Fixture for C4: a single positive-power reading on day 0. -/
def rs4 : List Reading := [rrE 100 500 25 3]

/-- Fixture for C5: a positive-power reading with energy 3 followed by a
zero-power reading with the larger cumulative energy 4, same date. -/
def rs5 : List Reading := [rrE 100 500 25 3, rrE 200 0 25 4]

/-- Fixture for C6: two readings on day 0 tied at the peak power 800. -/
def rs6 : List Reading := [rrE 100 800 25 3, rrE 200 800 25 3]

/-- Fixture for C8: one reading on day 44. -/
def rs8 : List Reading := [rrE (44 * 86400) 100 20 1]

/-- Fixture for C9: one reading on day 5. -/
def rs9 : List Reading := [rrE (5 * 86400 + 100) 100 20 1]

/-- Fixture for C10: one positive-power reading (temp 30) and one zero-power
reading (temp 10) on day 0. -/
def rs10 : List Reading := [rrE 100 500 30 3, rrE 200 0 10 3]

/-- A device whose session fails at the temperature register (3041) and
serves zeros elsewhere: one failing field read mid-cycle. -/
def failDev : DeviceClient :=
  ⟨fun a q => if a = 3041 then Except.error () else Except.ok (List.replicate q 0)⟩

/-- A database state with one stored reading and no summary rows. -/
def dbW : DB := ⟨[rrE 100 500 25 3], []⟩

/-- A device serving the word v at the temperature register 3041 and zeros
elsewhere, to trace the 16-bit signed decode through read_inverter. -/
def tempDevice (v : Nat) : DeviceClient :=
  ⟨fun a q => if a = 3041 then Except.ok [v] else Except.ok (List.replicate q 0)⟩

/-- A device serving the words (hi, lo) at the reactive-power register 3006
and zeros elsewhere, to trace the 32-bit signed decode through
read_inverter. -/
def reactiveDevice (hi lo : Nat) : DeviceClient :=
  ⟨fun a q => if a = 3006 then Except.ok [hi, lo] else Except.ok (List.replicate q 0)⟩

/-! ### Helper lemmas -/

/-- SQL MAX over a nonempty group is a value of the group and bounds it. -/
theorem maxQ_spec : ∀ (l : List ℚ), l ≠ [] → ∃ m, maxQ l = some m ∧ m ∈ l ∧ ∀ x ∈ l, x ≤ m
  | [], h => absurd rfl h
  | [a], _ => ⟨a, rfl, by simp, by simp⟩
  | a :: b :: t, _ => by
    obtain ⟨m, hm, hmem, hle⟩ := maxQ_spec (b :: t) (by simp)
    refine ⟨max a m, ?_, ?_, ?_⟩
    · rw [maxQ, hm]
    · rcases max_choice a m with h | h <;> rw [h]
      · exact List.mem_cons_self ..
      · exact List.mem_cons_of_mem _ hmem
    · intro x hx
      rcases List.mem_cons.mp hx with h | h
      · subst h; exact le_max_left ..
      · exact le_trans (hle x h) (le_max_right ..)

/-- The ORDER BY power DESC LIMIT 1 scan over a timestamp-sorted list yields
a row of maximal active power, and on ties the earliest timestamp. -/
theorem argmaxFirst_spec :
    ∀ (l : List Reading), l ≠ [] →
      l.Pairwise (fun a b => a.timestamp ≤ b.timestamp) →
      ∃ r, argmaxFirst l = some r ∧ r ∈ l ∧
        (∀ x ∈ l, x.active_power_w ≤ r.active_power_w) ∧
        ∀ x ∈ l, (∀ y ∈ l, y.active_power_w ≤ x.active_power_w) → r.timestamp ≤ x.timestamp
  | [], h, _ => absurd rfl h
  | [a], _, _ => ⟨a, rfl, by simp, by simp, by simp⟩
  | a :: b :: t, _, hp => by
    have ha : ∀ y ∈ b :: t, a.timestamp ≤ y.timestamp := (List.pairwise_cons.mp hp).1
    obtain ⟨r, hr, hmem, hmax, hfirst⟩ := argmaxFirst_spec (b :: t) (by simp) hp.of_cons
    by_cases hgt : r.active_power_w > a.active_power_w
    · refine ⟨r, ?_, List.mem_cons_of_mem _ hmem, ?_, ?_⟩
      · rw [argmaxFirst, hr]
        show some (if r.active_power_w > a.active_power_w then r else a) = some r
        rw [if_pos hgt]
      · intro x hx
        rcases List.mem_cons.mp hx with h | h
        · subst h; exact le_of_lt hgt
        · exact hmax x h
      · intro x hx hxmax
        rcases List.mem_cons.mp hx with h | h
        · subst h
          exact absurd (hxmax r (List.mem_cons_of_mem _ hmem)) (not_le.mpr hgt)
        · exact hfirst x h fun y hy => hxmax y (List.mem_cons_of_mem _ hy)
    · refine ⟨a, ?_, List.mem_cons_self .., ?_, ?_⟩
      · rw [argmaxFirst, hr]
        show some (if r.active_power_w > a.active_power_w then r else a) = some a
        rw [if_neg hgt]
      · intro x hx
        rcases List.mem_cons.mp hx with h | h
        · subst h; exact le_refl _
        · exact le_trans (hmax x h) (not_lt.mp hgt)
      · intro x hx _
        rcases List.mem_cons.mp hx with h | h
        · subst h; exact le_refl _
        · exact ha x h

/-- Primary-key lookup after INSERT OR REPLACE finds the replaced row. -/
theorem lookupDate_upsert (row : SummaryRow) (tbl : List SummaryRow) :
    lookupDate row.date (upsert row tbl) = some row := by
  unfold lookupDate upsert
  rw [List.find?_append]
  have h1 : (tbl.filter fun s => decide (s.date ≠ row.date)).find?
      (fun s => decide (s.date = row.date)) = none := by
    rw [List.find?_eq_none]
    intro x hx
    have hne := (List.mem_filter.mp hx).2
    simp only [decide_eq_true_eq] at hne ⊢
    exact hne
  rw [h1, Option.none_or]
  simp [List.find?]

/-- INSERT OR REPLACE of the same row twice equals doing it once. -/
theorem upsert_idem (row : SummaryRow) (tbl : List SummaryRow) :
    upsert row (upsert row tbl) = upsert row tbl := by
  unfold upsert
  rw [List.filter_append, List.filter_filter]
  simp

theorem sortAscNat_nil : sortAscNat [] = [] := rfl

/-! ### Claim theorems -/

/-- C1: the decoder combines words big-endian (words[0]*65536 + words[1] for
2-word fields) and for signed fields reinterprets via twos-complement at the
field width: a 16-bit value v decodes to v when v ≤ 32767 and v - 65536
otherwise, staying congruent to v mod 2^16 inside [-32768, 32767]; a 32-bit
combination decodes to value - 4294967296 when value > 2147483647, congruent
mod 2^32 inside the signed 32-bit range; and the scale factor is applied
after sign extension on the actual read path (temperature = signed16(word)
× 0.1, reactive power = signed32(be32) × 1). -/
theorem c1_register_decoder (v hi lo : Nat) (hv : v < 65536) (hhi : hi < 65536)
    (hlo : lo < 65536) :
    be32 hi lo = hi * 65536 + lo
    ∧ signed16 v = (if v ≤ 32767 then (v : Int) else (v : Int) - 65536)
    ∧ signed16 v % 65536 = (v : Int)
    ∧ -32768 ≤ signed16 v ∧ signed16 v ≤ 32767
    ∧ signed32 (be32 hi lo) % 4294967296 = (be32 hi lo : Int)
    ∧ -2147483648 ≤ signed32 (be32 hi lo) ∧ signed32 (be32 hi lo) ≤ 2147483647
    ∧ (read_inverter (tempDevice v)).toOption.map (fun d => d.temperature_c)
        = some ((signed16 v : ℚ) * (1/10))
    ∧ (read_inverter (reactiveDevice hi lo)).toOption.map (fun d => d.reactive_power_var)
        = some ((signed32 (be32 hi lo) : ℚ)) := by
  refine ⟨rfl, ?_, ?_, ?_, ?_, ?_, ?_, ?_, rfl, rfl⟩
  · simp only [signed16]; split <;> split <;> omega
  · simp only [signed16]; split <;> omega
  · simp only [signed16]; split <;> omega
  · simp only [signed16]; split <;> omega
  · simp only [signed32, be32]; split <;> omega
  · simp only [signed32, be32]; split <;> omega
  · simp only [signed32, be32]; split <;> omega

/-- Witness for C1 at v = 40000 (negative 16-bit), hi = 1, lo = 9029
(0x0001, 0x2345 → 74565). -/
theorem c1_witness :
    be32 1 9029 = 1 * 65536 + 9029
    ∧ signed16 40000
        = (if (40000 : Nat) ≤ 32767 then ((40000 : Nat) : Int) else ((40000 : Nat) : Int) - 65536)
    ∧ signed16 40000 % 65536 = ((40000 : Nat) : Int)
    ∧ -32768 ≤ signed16 40000 ∧ signed16 40000 ≤ 32767
    ∧ signed32 (be32 1 9029) % 4294967296 = (be32 1 9029 : Int)
    ∧ -2147483648 ≤ signed32 (be32 1 9029) ∧ signed32 (be32 1 9029) ≤ 2147483647
    ∧ (read_inverter (tempDevice 40000)).toOption.map (fun d => d.temperature_c)
        = some ((signed16 40000 : ℚ) * (1/10))
    ∧ (read_inverter (reactiveDevice 1 9029)).toOption.map (fun d => d.reactive_power_var)
        = some ((signed32 (be32 1 9029) : ℚ)) :=
  c1_register_decoder 40000 1 9029 (by decide) (by decide) (by decide)

/-- C2: a cycle whose inverter read fails leaves the database (readings and
summaries) unchanged and does not stop subsequent cycles of the loop. -/
theorem c2_cycle_atomicity (pollInterval : Nat) (dev : DeviceClient) (now : Nat) (db : DB)
    (h : read_inverter dev = Except.error ()) :
    cycleStep pollInterval dev now db = db
    ∧ ∀ rest, runCycles pollInterval ((dev, now) :: rest) db = runCycles pollInterval rest db := by
  have h1 : cycleStep pollInterval dev now db = db := by
    unfold cycleStep
    rw [h]
  exact ⟨h1, fun rest => by simp only [runCycles, h1]⟩

/-- Witness for C2: a device failing at the temperature register leaves a
nonempty database untouched. -/
theorem c2_witness :
    cycleStep 300 failDev 1000 dbW = dbW
    ∧ runCycles 300 ((failDev, 1000) :: []) dbW = runCycles 300 [] dbW := by
  have h := c2_cycle_atomicity 300 failDev 1000 dbW rfl
  exact ⟨h.1, h.2 []⟩

/-- C3 (code bug): on the spec section 8 example (active powers
[0, 500, 800, 300] at POLL_INTERVAL = 300 seconds) the code stores
generation_hours = 3 × 300 / 60 = 15, while the claimed formula
count × interval-seconds / 3600 gives 0.25. -/
theorem c3_generation_hours_bug :
    (lookupDate 0 (update_daily_summary 300 0 rs3 [])).map (fun s => s.generation_hours)
      = some 15
    ∧ ((rs3.filter fun r => decide (dateOf r.timestamp = 0)).filter
        fun r => decide (0 < r.active_power_w)).length = 3
    ∧ (3 : ℚ) * 300 / 3600 = 1/4
    ∧ (15 : ℚ) ≠ 1/4 := by
  refine ⟨?_, by decide, by norm_num, by norm_num⟩
  norm_num [rs3, rrE, update_daily_summary, lookupDate, upsert, dateOf, maxQ, avgQ,
    argmaxFirst, List.filter, List.find?]

/-- C7: refreshing the daily summary twice over the same readings leaves the
daily_summary table exactly as one refresh does. -/
theorem c7_refresh_idempotent (pollInterval today : Nat) (readings : List Reading)
    (tbl : List SummaryRow) :
    update_daily_summary pollInterval today readings
        (update_daily_summary pollInterval today readings tbl)
      = update_daily_summary pollInterval today readings tbl := by
  unfold update_daily_summary
  cases hE : maxQ (((readings.filter fun r => decide (dateOf r.timestamp = today)).filter
      fun r => decide (0 < r.active_power_w)).map fun r => r.energy_today_kwh) with
  | none =>
    cases hP : maxQ (((readings.filter fun r => decide (dateOf r.timestamp = today)).filter
        fun r => decide (0 < r.active_power_w)).map fun r => r.active_power_w) <;> rfl
  | some e =>
    cases hP : maxQ (((readings.filter fun r => decide (dateOf r.timestamp = today)).filter
        fun r => decide (0 < r.active_power_w)).map fun r => r.active_power_w) with
    | none => rfl
    | some p => exact upsert_idem _ _

/-- C5 counterexample: with a positive-power reading (energy 3) and a
zero-power reading (energy 4) on the same date, the code stores
energy_kwh = 3, while the maximum over all of the date's readings
(zero-power included) is 4. -/
theorem c5_counterexample :
    (lookupDate 0 (update_daily_summary 300 0 rs5 [])).map (fun s => s.energy_kwh) = some 3
    ∧ maxQ ((rs5.filter fun r => decide (dateOf r.timestamp = 0)).map
        fun r => r.energy_today_kwh) = some 4
    ∧ (3 : ℚ) ≠ 4 := by decide

/-- C5 (amended): for a date with at least one positive-active-power reading,
energy_kwh is the maximum of the cumulative daily-energy field over that
date's readings with active power > 0 (zero-power readings excluded). -/
theorem c5_energy_amended (pollInterval today : Nat) (readings : List Reading)
    (tbl : List SummaryRow)
    (hpos : ((readings.filter fun r => decide (dateOf r.timestamp = today)).filter
        fun r => decide (0 < r.active_power_w)) ≠ []) :
    ∃ row,
      lookupDate today (update_daily_summary pollInterval today readings tbl) = some row
      ∧ row.energy_kwh ∈ (((readings.filter fun r => decide (dateOf r.timestamp = today)).filter
          fun r => decide (0 < r.active_power_w)).map fun r => r.energy_today_kwh)
      ∧ ∀ r ∈ ((readings.filter fun r => decide (dateOf r.timestamp = today)).filter
          fun r => decide (0 < r.active_power_w)), r.energy_today_kwh ≤ row.energy_kwh := by
  have hE0 := maxQ_spec (((readings.filter fun r => decide (dateOf r.timestamp = today)).filter
        fun r => decide (0 < r.active_power_w)).map fun r => r.energy_today_kwh)
      (fun h0 => hpos (List.map_eq_nil_iff.mp h0))
  have hP0 := maxQ_spec (((readings.filter fun r => decide (dateOf r.timestamp = today)).filter
        fun r => decide (0 < r.active_power_w)).map fun r => r.active_power_w)
      (fun h0 => hpos (List.map_eq_nil_iff.mp h0))
  obtain ⟨e, hE, hEmem, hEle⟩ := hE0
  obtain ⟨p, hP, -, -⟩ := hP0
  obtain ⟨row, hu, hd, hek⟩ :
      ∃ row, update_daily_summary pollInterval today readings tbl = upsert row tbl
        ∧ row.date = today ∧ row.energy_kwh = e := by
    unfold update_daily_summary
    rw [hE, hP]
    exact ⟨_, rfl, rfl, rfl⟩
  refine ⟨row, ?_, ?_, ?_⟩
  · rw [hu]
    have h2 := lookupDate_upsert row tbl
    rwa [hd] at h2
  · rw [hek]
    exact hEmem
  · intro r hr
    rw [hek]
    exact hEle _ (List.mem_map_of_mem _ hr)

/-- Witness for C5 (amended) on the rs5 fixture. -/
theorem c5_witness :
    ∃ row,
      lookupDate 0 (update_daily_summary 300 0 rs5 []) = some row
      ∧ row.energy_kwh ∈ (((rs5.filter fun r => decide (dateOf r.timestamp = 0)).filter
          fun r => decide (0 < r.active_power_w)).map fun r => r.energy_today_kwh)
      ∧ ∀ r ∈ ((rs5.filter fun r => decide (dateOf r.timestamp = 0)).filter
          fun r => decide (0 < r.active_power_w)), r.energy_today_kwh ≤ row.energy_kwh :=
  c5_energy_amended 300 0 rs5 [] (by decide)

/-- C6: for a date with a positive-power reading, when the stored readings
are in nondecreasing timestamp order (the append-only store writes them so),
peak_power_time is the timestamp of a reading of that date achieving the
maximal active power, the earliest such timestamp on ties. -/
theorem c6_peak_power_time (pollInterval today : Nat) (readings : List Reading)
    (tbl : List SummaryRow)
    (hsort : readings.Pairwise fun a b => a.timestamp ≤ b.timestamp)
    (hpos : ((readings.filter fun r => decide (dateOf r.timestamp = today)).filter
        fun r => decide (0 < r.active_power_w)) ≠ []) :
    ∃ row rp,
      lookupDate today (update_daily_summary pollInterval today readings tbl) = some row
      ∧ rp ∈ readings.filter (fun r => decide (dateOf r.timestamp = today))
      ∧ row.peak_power_time = some rp.timestamp
      ∧ (∀ x ∈ readings.filter (fun r => decide (dateOf r.timestamp = today)),
          x.active_power_w ≤ rp.active_power_w)
      ∧ ∀ x ∈ readings.filter (fun r => decide (dateOf r.timestamp = today)),
          (∀ y ∈ readings.filter (fun r => decide (dateOf r.timestamp = today)),
            y.active_power_w ≤ x.active_power_w) → rp.timestamp ≤ x.timestamp := by
  have hTne : readings.filter (fun r => decide (dateOf r.timestamp = today)) ≠ [] := by
    intro h0
    apply hpos
    rw [h0]
    rfl
  obtain ⟨rp, hrp, hmem, hmax, hfirst⟩ := argmaxFirst_spec _ hTne (hsort.filter _)
  have hE0 := maxQ_spec (((readings.filter fun r => decide (dateOf r.timestamp = today)).filter
        fun r => decide (0 < r.active_power_w)).map fun r => r.energy_today_kwh)
      (fun h0 => hpos (List.map_eq_nil_iff.mp h0))
  have hP0 := maxQ_spec (((readings.filter fun r => decide (dateOf r.timestamp = today)).filter
        fun r => decide (0 < r.active_power_w)).map fun r => r.active_power_w)
      (fun h0 => hpos (List.map_eq_nil_iff.mp h0))
  obtain ⟨e, hE, -, -⟩ := hE0
  obtain ⟨p, hP, -, -⟩ := hP0
  obtain ⟨row, hu, hd, hpt⟩ :
      ∃ row, update_daily_summary pollInterval today readings tbl = upsert row tbl
        ∧ row.date = today
        ∧ row.peak_power_time = Option.map (fun r => r.timestamp)
            (argmaxFirst (readings.filter fun r => decide (dateOf r.timestamp = today))) := by
    unfold update_daily_summary
    rw [hE, hP]
    exact ⟨_, rfl, rfl, rfl⟩
  refine ⟨row, rp, ?_, hmem, ?_, hmax, hfirst⟩
  · rw [hu]
    have h2 := lookupDate_upsert row tbl
    rwa [hd] at h2
  · rw [hpt, hrp]
    rfl

/-- Witness for C6 on the rs6 fixture: two readings tied at 800 W, the
stored peak_power_time is the earlier timestamp. -/
theorem c6_witness :
    ∃ row rp,
      lookupDate 0 (update_daily_summary 300 0 rs6 []) = some row
      ∧ rp ∈ rs6.filter (fun r => decide (dateOf r.timestamp = 0))
      ∧ row.peak_power_time = some rp.timestamp
      ∧ (∀ x ∈ rs6.filter (fun r => decide (dateOf r.timestamp = 0)),
          x.active_power_w ≤ rp.active_power_w)
      ∧ ∀ x ∈ rs6.filter (fun r => decide (dateOf r.timestamp = 0)),
          (∀ y ∈ rs6.filter (fun r => decide (dateOf r.timestamp = 0)),
            y.active_power_w ≤ x.active_power_w) → rp.timestamp ≤ x.timestamp :=
  c6_peak_power_time 300 0 rs6 [] (by decide) (by decide)

/-- C4 counterexample: on a single positive reading the collector's refresh
row and the dashboard fallback row differ (peak_power_time some vs none,
generation_hours 5 vs 1/12 at POLL_INTERVAL = 300). -/
theorem c4_counterexample :
    lookupDate 0 (update_daily_summary 300 0 rs4 []) ≠ fallback_row 0 rs4 := by
  intro h
  have h1 : (lookupDate 0 (update_daily_summary 300 0 rs4 [])).map (fun s => s.peak_power_time)
      = (fallback_row 0 rs4).map (fun s => s.peak_power_time) := by rw [h]
  revert h1
  decide

/-- C4 (amended): when the daily_summary table is empty, the fallback's
per-date row agrees with the collector's refresh on energy_kwh, peak_power_w
and avg_temperature_c, but not in general on peak_power_time (fallback: NULL)
or generation_hours (fallback: hard-coded 5-minute interval). -/
theorem c4_fallback_amended (pollInterval today : Nat) (readings : List Reading)
    (tbl : List SummaryRow)
    (hpos : ((readings.filter fun r => decide (dateOf r.timestamp = today)).filter
        fun r => decide (0 < r.active_power_w)) ≠ []) :
    ∃ rc rf,
      lookupDate today (update_daily_summary pollInterval today readings tbl) = some rc
      ∧ fallback_row today readings = some rf
      ∧ rc.energy_kwh = rf.energy_kwh
      ∧ rc.peak_power_w = rf.peak_power_w
      ∧ rc.avg_temperature_c = rf.avg_temperature_c := by
  have hfil : (readings.filter fun r => decide (dateOf r.timestamp = today)).filter
      (fun r => decide (0 < r.active_power_w))
      = readings.filter fun r =>
          decide (0 < r.active_power_w) && decide (dateOf r.timestamp = today) :=
    List.filter_filter _ _
  cases hF : readings.filter (fun r =>
      decide (0 < r.active_power_w) && decide (dateOf r.timestamp = today)) with
  | nil => exact absurd (hfil.trans hF) hpos
  | cons a t =>
    have hpt : (readings.filter fun r => decide (dateOf r.timestamp = today)).filter
        (fun r => decide (0 < r.active_power_w)) = a :: t := hfil.trans hF
    have hE0 := maxQ_spec (((readings.filter fun r => decide (dateOf r.timestamp = today)).filter
          fun r => decide (0 < r.active_power_w)).map fun r => r.energy_today_kwh)
        (by rw [hpt]; simp)
    have hP0 := maxQ_spec (((readings.filter fun r => decide (dateOf r.timestamp = today)).filter
          fun r => decide (0 < r.active_power_w)).map fun r => r.active_power_w)
        (by rw [hpt]; simp)
    obtain ⟨e, hE, -, -⟩ := hE0
    obtain ⟨p, hP, -, -⟩ := hP0
    obtain ⟨rc, hu, hd, hek, hpw, hat⟩ :
        ∃ rc, update_daily_summary pollInterval today readings tbl = upsert rc tbl
          ∧ rc.date = today ∧ rc.energy_kwh = e ∧ rc.peak_power_w = p
          ∧ rc.avg_temperature_c
              = avgQ (((readings.filter fun r => decide (dateOf r.timestamp = today)).filter
                  fun r => decide (0 < r.active_power_w)).map fun r => r.temperature_c) := by
      unfold update_daily_summary
      rw [hE, hP]
      exact ⟨_, rfl, rfl, rfl, rfl, rfl⟩
    have hfall : fallback_row today readings = some
        { date := today
          energy_kwh := ((maxQ ((a :: t).map fun r => r.energy_today_kwh)).getD 0)
          peak_power_w := ((maxQ ((a :: t).map fun r => r.active_power_w)).getD 0)
          peak_power_time := none
          avg_temperature_c := avgQ ((a :: t).map fun r => r.temperature_c)
          generation_hours := (((a :: t).length : ℚ)) * 5 / 60 } := by
      unfold fallback_row
      rw [hF]
    refine ⟨rc, _, ?_, hfall, ?_, ?_, ?_⟩
    · rw [hu]
      have h2 := lookupDate_upsert rc tbl
      rwa [hd] at h2
    · rw [hek]
      have h3 : maxQ ((a :: t).map fun r => r.energy_today_kwh) = some e := by
        rw [← hpt]
        exact hE
      rw [h3]
      rfl
    · rw [hpw]
      have h3 : maxQ ((a :: t).map fun r => r.active_power_w) = some p := by
        rw [← hpt]
        exact hP
      rw [h3]
      rfl
    · rw [hat, hpt]

/-- Witness for C4 (amended) on the rs4 fixture. -/
theorem c4_witness :
    ∃ rc rf,
      lookupDate 0 (update_daily_summary 300 0 rs4 []) = some rc
      ∧ fallback_row 0 rs4 = some rf
      ∧ rc.energy_kwh = rf.energy_kwh
      ∧ rc.peak_power_w = rf.peak_power_w
      ∧ rc.avg_temperature_c = rf.avg_temperature_c :=
  c4_fallback_amended 300 0 rs4 [] (by decide)

/-- C8 counterexample: with the current UTC day 100, a supplied end of day 50
and an absent start, the code's range excludes a reading on day 44 even
though day 44 lies within the claim's range [end - 7, end] = [43, 50]; with
an explicit start of 43 the reading is returned. -/
theorem c8_counterexample :
    (api_history 100 ⟨none, some 50, none⟩ rs8).toOption = some []
    ∧ 50 - 7 ≤ 44 ∧ 44 ≤ 50
    ∧ (api_history 100 ⟨some (50 - 7), some 50, none⟩ rs8).toOption.map List.length
        = some 1 := by decide

/-- C8 (amended): an absent start defaults to 7 days before the current UTC
date (not 7 days before the supplied end); an absent end defaults to the
current UTC date. -/
theorem c8_defaults_amended :
    (∀ (nowDay : Nat) (e : Option Nat) (res : Option String) (readings : List Reading),
        api_history nowDay ⟨none, e, res⟩ readings
          = api_history nowDay ⟨some (nowDay - 7), e, res⟩ readings)
    ∧ ∀ (nowDay : Nat) (s : Option Nat) (res : Option String) (readings : List Reading),
        api_history nowDay ⟨s, none, res⟩ readings
          = api_history nowDay ⟨s, some nowDay, res⟩ readings :=
  ⟨fun _ _ _ _ => rfl, fun _ _ _ _ => rfl⟩

/-- Witness for C8 (amended) at concrete arguments. -/
theorem c8_witness :
    api_history 100 ⟨none, some 50, none⟩ rs8
      = api_history 100 ⟨some (100 - 7), some 50, none⟩ rs8
    ∧ api_history 100 ⟨some 43, none, none⟩ rs8
      = api_history 100 ⟨some 43, some 100, none⟩ rs8 :=
  ⟨c8_defaults_amended.1 100 (some 50) none rs8, c8_defaults_amended.2 100 (some 43) none rs8⟩

/-- C9 counterexample: the unrecognized resolution value weekly yields the
raw-branch data (one row), not an error. -/
theorem c9_counterexample :
    (api_history 10 ⟨some 0, some 10, some "weekly"⟩ rs9).toOption
      = (api_history 10 ⟨some 0, some 10, some "raw"⟩ rs9).toOption
    ∧ (api_history 10 ⟨some 0, some 10, some "weekly"⟩ rs9).toOption.map List.length
        = some 1 := by decide

/-- C9 (amended): a resolution value other than hourly/daily is treated
exactly as raw (no error is surfaced), and a well-formed query over a range
containing no readings returns an empty sequence, not an error. -/
theorem c9_resolution_amended :
    (∀ (nowDay : Nat) (q : HistoryQuery) (readings : List Reading),
        q.qres.getD "raw" ≠ "hourly" → q.qres.getD "raw" ≠ "daily" →
        api_history nowDay q readings
          = api_history nowDay ⟨q.qstart, q.qend, some "raw"⟩ readings)
    ∧ ∀ (nowDay : Nat) (q : HistoryQuery) (readings : List Reading),
        (readings.filter fun r =>
          decide (q.qstart.getD (nowDay - 7) ≤ dateOf r.timestamp) &&
          decide (dateOf r.timestamp ≤ q.qend.getD nowDay)) = [] →
        api_history nowDay q readings = Except.ok [] := by
  constructor
  · intro nowDay q readings h1 h2
    unfold api_history
    rw [if_neg h1, if_neg h2]
    rfl
  · intro nowDay q readings h
    simp only [api_history]
    rw [h]
    simp only [List.map_nil, List.dedup_nil, sortAscNat_nil, List.filter_nil]
    split
    · rfl
    · split <;> rfl

/-- Witness for C9 (amended): weekly behaves as raw on rs9, and an hourly
query over an empty range returns the empty list. -/
theorem c9_witness :
    api_history 10 ⟨some 0, some 10, some "weekly"⟩ rs9
      = api_history 10 ⟨some 0, some 10, some "raw"⟩ rs9
    ∧ api_history 99 ⟨some 50, some 60, some "hourly"⟩ rs9 = Except.ok [] :=
  ⟨c9_resolution_amended.1 10 ⟨some 0, some 10, some "weekly"⟩ rs9 (by decide) (by decide),
   c9_resolution_amended.2 99 ⟨some 50, some 60, some "hourly"⟩ rs9 (by decide)⟩

/-- C10: the stats endpoint's today aggregates carry no positive-power
filter: appending a zero-power reading of the date increments its reading
count; and on the rs10 fixture (powers 500 and 0, temperatures 30 and 10)
the stats average temperature is 20 over 2 readings while the DailySummary
row averages 30 over its single positive reading (generation basis
1 × 300/60 = 5). -/
theorem c10_stats_unfiltered :
    (∀ (today : Nat) (readings : List Reading) (r : Reading),
        dateOf r.timestamp = today → r.active_power_w = 0 →
        (api_stats_today today (readings ++ [r])).readings_today
          = (api_stats_today today readings).readings_today + 1)
    ∧ (api_stats_today 0 rs10).readings_today = 2
    ∧ (api_stats_today 0 rs10).avg_temp_today = some 20
    ∧ (lookupDate 0 (update_daily_summary 300 0 rs10 [])).map (fun s => s.avg_temperature_c)
        = some 30
    ∧ (lookupDate 0 (update_daily_summary 300 0 rs10 [])).map (fun s => s.generation_hours)
        = some 5
    ∧ (20 : ℚ) ≠ 30 := by
  refine ⟨?_, by decide, ?_, ?_, ?_, by norm_num⟩
  · intro today readings r h1 _
    show ((readings ++ [r]).filter fun x => decide (dateOf x.timestamp = today)).length
        = (readings.filter fun x => decide (dateOf x.timestamp = today)).length + 1
    rw [List.filter_append, List.length_append]
    simp [h1]
  · norm_num [rs10, rrE, api_stats_today, dateOf, avgQ, List.filter]
    exact fun h => (List.cons_ne_nil _ _ h).elim
  · norm_num [rs10, rrE, update_daily_summary, lookupDate, upsert, dateOf, maxQ, avgQ,
      argmaxFirst, List.filter, List.find?]
  · norm_num [rs10, rrE, update_daily_summary, lookupDate, upsert, dateOf, maxQ, avgQ,
      argmaxFirst, List.filter, List.find?]

/-- Witness for C10's universally quantified part on the rs10 readings. -/
theorem c10_witness :
    (api_stats_today 0 ([rrE 100 500 30 3] ++ [rrE 200 0 10 3])).readings_today
      = (api_stats_today 0 [rrE 100 500 30 3]).readings_today + 1 :=
  c10_stats_unfiltered.1 0 [rrE 100 500 30 3] (rrE 200 0 10 3) (by decide) (by decide)

end Solar
